import Mathlib

/-!
Verification development for the source-merge engine of `danmu_api`
(`src/danmu_api/utils/merge-util.js`).  JavaScript strings are embedded as
`List Char` (UTF-16 code units; every character that occurs in the engine is
in the BMP, where code unit = code point).  JavaScript numbers that carry
scores are embedded as exact rationals; the 32-bit wrap-around arithmetic of
the merged-id hash is embedded with explicit `% 2^32` arithmetic on `Int`.
Fallible lookups return `Option`.
-/

/-! ## Character classes and basic string helpers -/

/-- The character set matched by the JavaScript regex class `\s`
(whitespace, also used by `String.prototype.trim`). -/
def isJsWs (c : Char) : Bool :=
  let n := c.toNat
  n = 9 || n = 10 || n = 11 || n = 12 || n = 13 || n = 32 || n = 160 ||
  n = 5760 || (8192 ≤ n && n ≤ 8202) || n = 8232 || n = 8233 || n = 8239 ||
  n = 8287 || n = 12288 || n = 65279

/-- JavaScript line terminators: the characters NOT matched by `.` in a regex
without the `s` flag. -/
def isLineTerm (c : Char) : Bool :=
  let n := c.toNat
  n = 10 || n = 13 || n = 8232 || n = 8233

/-- ASCII decimal digit, the regex class `\d`. -/
def isDigitChar (c : Char) : Bool :=
  48 ≤ c.toNat && c.toNat ≤ 57

/-- `List Char` version of `String.prototype.startsWith`. -/
def startsWithL : List Char → List Char → Bool
  | [], _ => true
  | _ :: _, [] => false
  | p :: ps, c :: cs => p = c && startsWithL ps cs

/-- `List Char` version of `String.prototype.includes`. -/
def containsSub (hay needle : List Char) : Bool :=
  match hay with
  | [] => needle.isEmpty
  | _ :: tl => startsWithL needle hay || containsSub tl needle

/-- Case-insensitive prefix match (ASCII case folding, as used by the `i`
regex flag on the ASCII patterns of the source): returns the rest of the
input after the pattern on success. -/
def stripLitCI : List Char → List Char → Option (List Char)
  | [], l => some l
  | _ :: _, [] => none
  | p :: ps, c :: cs => if p.toLower = c.toLower then stripLitCI ps cs else none

/-- Case-sensitive prefix match returning the rest on success. -/
def stripLit : List Char → List Char → Option (List Char)
  | [], l => some l
  | _ :: _, [] => none
  | p :: ps, c :: cs => if p = c then stripLit ps cs else none

/-- Greedy `\s+`: at least one whitespace character, consumed maximally. -/
def stripWsPlus (l : List Char) : Option (List Char) :=
  match l with
  | c :: cs => if isJsWs c then some (cs.dropWhile isJsWs) else none
  | [] => none

/-- Maximal run of decimal digits together with the rest of the input. -/
def takeDigits (l : List Char) : List Char × List Char :=
  (l.takeWhile isDigitChar, l.dropWhile isDigitChar)

/-- Numeric value of a digit string (the integer part of `parseInt`). -/
def digitsToNat (ds : List Char) : Nat :=
  ds.foldl (fun n c => n * 10 + (c.toNat - 48)) 0

/-- Decimal digit character of a value below ten. -/
def digitChar (n : Nat) : Char := Char.ofNat (48 + n)

/-- Fuel-indexed digit extraction; the value shrinks by a factor of ten per
step, so a fuel of `n + 1` always reaches the base case. -/
def natDigitsGo (fuel n : Nat) : List Char :=
  match fuel with
  | 0 => []
  | f + 1 =>
    if n < 10 then [digitChar n]
    else natDigitsGo f (n / 10) ++ [digitChar (n % 10)]

/-- Decimal representation of a natural number, as JavaScript renders an
integral number in a template literal or `String(n)`. -/
def natToDigits (n : Nat) : List Char := natDigitsGo (n + 1) n

/-- `String.prototype.trim`: drop the `\s` class from both ends. -/
def trimL (l : List Char) : List Char :=
  ((l.dropWhile isJsWs).reverse.dropWhile isJsWs).reverse

/-! ## MergedIdGenerator (`generateSafeMergedId`, merge-util.js lines 871-881) -/

/-- JavaScript `ToInt32`: reduce an exact integer to the 32-bit signed value
produced by the `|0` and `<<` operators. -/
def toInt32 (n : Int) : Int :=
  (n + 2 ^ 31) % 2 ^ 32 - 2 ^ 31

/-- One iteration of the hash loop
`hash = ((hash << 5) - hash) + str.charCodeAt(i); hash |= 0;`.
`hash << 5` is itself a 32-bit operation, hence the inner `toInt32`;
the subtraction and addition are exact in double precision for 32-bit
operands, and `|= 0` wraps the result. -/
def hashStep (h : Int) (c : Nat) : Int :=
  toInt32 (toInt32 (h * 32) - h + c)

/-- The hash accumulated over a code-unit sequence, starting from `0`. -/
def hashString (l : List Char) : Int :=
  l.foldl (fun h c => hashStep h c.toNat) 0

/-- The template literal \x60${id1}_${id2}_${salt}\x60 of the source
(ids are already rendered as strings in this embedding). -/
def mergedIdInput (id1 id2 salt : List Char) : List Char :=
  id1 ++ '_' :: id2 ++ '_' :: salt

/-- `generateSafeMergedId(id1, id2, salt)`:
`(Math.abs(hash) % 1000000000) + 1000000000`. -/
def generateSafeMergedId (id1 id2 salt : List Char) : Int :=
  ((hashString (mergedIdInput id1 id2 salt)).natAbs % 1000000000 : Nat) + 1000000000

/-! ## TextNormalizer (`cleanText`, merge-util.js lines 22-51)

Each `replace(regex, ...)` call of the source is embedded as one matcher
function fed to a generic left-to-right scanner.  The scanner mirrors a
global `String.prototype.replace`: at each position it attempts the match
(the matchers spell out the backtracking order of the alternations of the
concrete regex); on success it emits the replacement and resumes after the
matched span, otherwise it copies one character.  None of the regexes in the
source can match the empty string, so every match consumes at least one
character and a fuel of the input length suffices. -/

/-- Generic global-replace scanner.  The matcher receives a flag telling
whether the scanner is at position 0 (for the `^` anchor) and returns
`(replacement, rest-of-input)` on a match. -/
def scanRepl (m : Bool → List Char → Option (List Char × List Char)) :
    Nat → Bool → List Char → List Char
  | 0, _, l => l
  | _ + 1, _, [] => []
  | n + 1, atStart, c :: cs =>
    match m atStart (c :: cs) with
    | some (r, rest) => r ++ scanRepl m n false rest
    | none => c :: scanRepl m n false cs

/-- Run a matcher as a global replace over a whole string. -/
def runRepl (m : Bool → List Char → Option (List Char × List Char))
    (l : List Char) : List Char :=
  scanRepl m l.length true l

/-- Modelled from the spec: `simplized` (zh-util.js, not part of the sources
under review) "converts to simplified-script form".  Embedded as a
character-wise traditional-to-simplified map that is the identity on every
character outside a small conversion table (in particular on all ASCII). -/
def simpChar (c : Char) : Char :=
  if c = '國' then '国' else if c = '電' then '电' else if c = '視' then '视'
  else if c = '劇' then '剧' else if c = '場' then '场' else if c = '語' then '语'
  else if c = '臺' then '台' else if c = '續' then '续' else if c = '終' then '终'
  else if c = '戰' then '战' else c

/-- Modelled from the spec: traditional-to-simplified conversion, mapped
character by character. -/
def simplized (l : List Char) : List Char := l.map simpChar

/-- Matcher for \x2f(?:The\s+)?Final\s+Season\x2fgi: try the alternative with
the optional `The` group first, then without. -/
def mFinalSeason (_ : Bool) (l : List Char) : Option (List Char × List Char) :=
  let fs : List Char → Option (List Char) := fun l0 => do
    let r1 ← stripLitCI (("final").toList) l0
    let r2 ← stripWsPlus r1
    stripLitCI (("season").toList) r2
  let withThe : Option (List Char) := do
    let r1 ← stripLitCI (("the").toList) l
    let r2 ← stripWsPlus r1
    fs r2
  match withThe <|> fs l with
  | some rest => some ((("最终季").toList, rest))
  | none => none

/-- Matcher for \x2f(?:Season|S)\s*(\d+)\x2fgi, replacement `第$1季`
($1 is the digit text as matched, leading zeros preserved). -/
def mSeasonNum (_ : Bool) (l : List Char) : Option (List Char × List Char) :=
  let afterPfx := stripLitCI (("season").toList) l <|> stripLitCI (("s").toList) l
  match afterPfx with
  | none => none
  | some r1 =>
    let r2 := r1.dropWhile isJsWs
    let (ds, r3) := takeDigits r2
    if ds.isEmpty then none
    else some ('第' :: ds ++ ['季'], r3)

/-- The Chinese-numeral table of the source (`cnNums`). -/
def cnNumVal (c : Char) : Option Nat :=
  if c = '一' then some 1 else if c = '二' then some 2 else if c = '三' then some 3
  else if c = '四' then some 4 else if c = '五' then some 5 else if c = '六' then some 6
  else if c = '七' then some 7 else if c = '八' then some 8 else if c = '九' then some 9
  else if c = '十' then some 10 else none

/-- Matcher for \x2f第([一二三四五六七八九十])季\x2fg. -/
def mCnSeason (_ : Bool) (l : List Char) : Option (List Char × List Char) :=
  match l with
  | '第' :: x :: '季' :: rest =>
    match cnNumVal x with
    | some n => some ('第' :: natToDigits n ++ ['季'], rest)
    | none => none
  | _ => none

/-- Matcher for \x2f(?:Part|P)[\s.]*(\d+)\x2fgi, replacement `第$1部分`. -/
def mPartNum (_ : Bool) (l : List Char) : Option (List Char × List Char) :=
  let afterPfx := stripLitCI (("part").toList) l <|> stripLitCI (("p").toList) l
  match afterPfx with
  | none => none
  | some r1 =>
    let r2 := r1.dropWhile (fun c => isJsWs c || c = '.')
    let (ds, r3) := takeDigits r2
    if ds.isEmpty then none
    else some ('第' :: ds ++ ['部', '分'], r3)

/-- Roman numeral table of the source (`rMap`). -/
def romanAlt (l : List Char) : Option (Nat × List Char) :=
  match stripLit (("IV").toList) l with
  | some r => some (4, r)
  | none =>
    match stripLit (("III").toList) l with
    | some r => some (3, r)
    | none =>
      match stripLit (("II").toList) l with
      | some r => some (2, r)
      | none =>
        match stripLit (("I").toList) l with
        | some r => some (1, r)
        | none => none

/-- Suffix `(\s|$)` of the roman-numeral regex: one whitespace character
(captured) or end of input.  Returns the captured text and the rest. -/
def romanTail (l : List Char) : Option (List Char × List Char) :=
  match l with
  | [] => some ([], [])
  | c :: cs => if isJsWs c then some ([c], cs) else none

/-- The roman alternatives tried in regex order, each completed by the
`(\s|$)` suffix so that a failing suffix backtracks into a shorter numeral. -/
def romanWithTail (l : List Char) : Option (Nat × List Char × List Char) :=
  let tryOne : List Char → Nat → Option (Nat × List Char × List Char) :=
    fun pat n =>
      match stripLit pat l with
      | some r =>
        match romanTail r with
        | some (p2, rest) => some (n, p2, rest)
        | none => none
      | none => none
  tryOne (("IV").toList) 4 <|> tryOne (("III").toList) 3 <|>
  tryOne (("II").toList) 2 <|> tryOne (("I").toList) 1

/-- Matcher for \x2f(\s|^)(IV|III|II|I)(\s|$)\x2fg (case-sensitive),
replacement `${p1}第${r}季${p2}`. -/
def mRoman (atStart : Bool) (l : List Char) : Option (List Char × List Char) :=
  match l with
  | c :: cs =>
    if isJsWs c then
      match romanWithTail cs with
      | some (n, p2, rest) => some (c :: '第' :: natToDigits n ++ '季' :: p2, rest)
      | none => none
    else if atStart then
      match romanWithTail l with
      | some (n, p2, rest) => some ('第' :: natToDigits n ++ '季' :: p2, rest)
      | none => none
    else none
  | [] => none

/-- One keyword of an alternation, tried in order, case-sensitively. -/
def altLit (pats : List (List Char)) (l : List Char) : Option (List Char) :=
  match pats with
  | [] => none
  | p :: ps => stripLit p l <|> altLit ps l

/-- Shared shape of the two dub-version regexes
\x2f(\(|（)?(KEYWORDS)版?(\)|）)?\x2fg: an optional open parenthesis (with
backtracking to the paren-less alternative), a required keyword, an optional
`版`, an optional close parenthesis. -/
def mDubShape (kws : List (List Char)) (l : List Char) : Option (List Char) :=
  let core : List Char → Option (List Char) := fun l0 => do
    let r1 ← altLit kws l0
    let r2 := match stripLit (("版").toList) r1 with | some r => r | none => r1
    let r3 := match stripLit ((")").toList) r2 with
              | some r => r
              | none => match stripLit (("）").toList) r2 with | some r => r | none => r2
    pure r3
  match l with
  | '(' :: cs => core cs <|> core l
  | '（' :: cs => core cs <|> core l
  | _ => core l

/-- Matcher for the dub normalization
\x2f(\(|（)?(普通话|国语|中文配音|中配)版?(\)|）)?\x2fg, replacement `中配版`. -/
def mDubZh (_ : Bool) (l : List Char) : Option (List Char × List Char) :=
  match mDubShape [("普通话").toList, ("国语").toList, ("中文配音").toList, ("中配").toList] l with
  | some rest => some ((("中配版").toList, rest))
  | none => none

/-- Matcher for the source-language removal
\x2f(\(|（)?(日语|日配|原版)版?(\)|）)?\x2fg, replacement empty. -/
def mDubJp (_ : Bool) (l : List Char) : Option (List Char × List Char) :=
  match mDubShape [("日语").toList, ("日配").toList, ("原版").toList] l with
  | some rest => some (([], rest))
  | none => none

/-- Lazy scan of `.*?】`: consume up to the first `】`, failing on a line
terminator (which `.` cannot match) or end of input. -/
def findCloseBracket : List Char → Option (List Char)
  | [] => none
  | '】' :: rest => some rest
  | c :: rest => if isLineTerm c then none else findCloseBracket rest

/-- Matcher for \x2f【.*?】\x2fg, replacement empty. -/
def mBrackets (_ : Bool) (l : List Char) : Option (List Char × List Char) :=
  match l with
  | '【' :: cs =>
    match findCloseBracket cs with
    | some rest => some (([], rest))
    | none => none
  | _ => none

/-- Lazy scan of `.*?地区(\)|）)`: find the first occurrence of `地区`
followed by a close parenthesis, every skipped character matched by `.`. -/
def findRegionEnd : List Char → Option (List Char)
  | [] => none
  | l@(c :: rest) =>
    match stripLit (("地区").toList) l with
    | some r =>
      (match r with
       | ')' :: r2 => some r2
       | '）' :: r2 => some r2
       | _ => if isLineTerm c then none else findRegionEnd rest)
    | none => if isLineTerm c then none else findRegionEnd rest

/-- Matcher for \x2f(\(|（)仅限.*?地区(\)|）)\x2fg, replacement empty. -/
def mRegion (_ : Bool) (l : List Char) : Option (List Char × List Char) :=
  let core : List Char → Option (List Char) := fun l0 => do
    let r1 ← stripLit (("仅限").toList) l0
    findRegionEnd r1
  match l with
  | '(' :: cs => (core cs).map (fun rest => ([], rest))
  | '（' :: cs => (core cs).map (fun rest => ([], rest))
  | _ => none

/-- The punctuation class `[!！?？,，.。、~～:：\-–—]` of the source. -/
def isCleanPunct (c : Char) : Bool :=
  c = '!' || c = '！' || c = '?' || c = '？' || c = ',' || c = '，' || c = '.' ||
  c = '。' || c = '、' || c = '~' || c = '～' || c = ':' || c = '：' || c = '-' ||
  c = '–' || c = '—'

/-- Matcher replacing one punctuation character by a space. -/
def mPunct (_ : Bool) (l : List Char) : Option (List Char × List Char) :=
  match l with
  | c :: cs => if isCleanPunct c then some (([' '], cs)) else none
  | [] => none

/-- Matcher for \x2f\s+\x2fg, replacement a single space. -/
def mWsRun (_ : Bool) (l : List Char) : Option (List Char × List Char) :=
  match l with
  | c :: cs => if isJsWs c then some (([' '], cs.dropWhile isJsWs)) else none
  | [] => none

/-- `cleanText(text)`: the full normalization pipeline of the source, in
source order.  An empty (falsy) input returns the empty string. -/
def cleanText (text : List Char) : List Char :=
  if text.isEmpty then []
  else
    let c1 := simplized text
    let c2 := runRepl mFinalSeason c1
    let c3 := runRepl mSeasonNum c2
    let c4 := runRepl mCnSeason c3
    let c5 := runRepl mPartNum c4
    let c6 := runRepl mRoman c5
    let c7 := runRepl mDubZh c6
    let c8 := runRepl mDubJp c7
    let c9 := runRepl mBrackets c8
    let c10 := runRepl mRegion c9
    let c11 := runRepl mPunct c10
    trimL ((runRepl mWsRun c11).map Char.toLower)

/-! ## SimilarityScorer (merge-util.js lines 126-219) -/

/-- Fuel-indexed Levenshtein recurrence.  Every recursive call shortens the
combined input length by at least one while the fuel drops by one, so any
fuel above the combined length computes the distance (see
`editDGo_fuel_congr`). -/
def editDGo : Nat → List Char → List Char → Nat
  | 0, _, _ => 0
  | _ + 1, [], s2 => s2.length
  | _ + 1, a :: s1, [] => (a :: s1).length
  | f + 1, a :: s1, b :: s2 =>
    min (min (editDGo f s1 (b :: s2) + 1) (editDGo f (a :: s1) s2 + 1))
      (editDGo f s1 s2 + if a = b then 0 else 1)

/-- `editDistance(s1, s2)` (lines 132-155).  The source fills the classic
Levenshtein dynamic-programming matrix; `matrix[i][j]` satisfies exactly the
recurrence of `editDGo` over the leading characters, and the returned
corner value is its fixpoint. -/
def editDistance (s1 s2 : List Char) : Nat :=
  editDGo (s1.length + s2.length + 1) s1 s2

/-- A JavaScript `Set` built by iterating a character sequence: first
occurrences in insertion order. -/
def jsSet (l : List Char) : List Char :=
  l.foldl (fun acc c => if c ∈ acc then acc else acc ++ [c]) []

/-- `calculateDiceSimilarity(s1, s2)` (lines 164-184): character-set Dice
coefficient over whitespace-stripped deduplicated character sets.  The
falsy-argument guard precedes the empty-set branches, exactly as in the
source. -/
def calculateDiceSimilarity (s1 s2 : List Char) : ℚ :=
  if s1 = [] ∨ s2 = [] then 0
  else
    let set1 := jsSet (s1.filter (fun c => !isJsWs c))
    let set2 := jsSet (s2.filter (fun c => !isJsWs c))
    if set1.length = 0 ∧ set2.length = 0 then 1
    else if set1.length = 0 ∨ set2.length = 0 then 0
    else
      let inter := set1.countP (fun c => decide (c ∈ set2))
      (2 * inter : ℚ) / ((set1.length : ℚ) + (set2.length : ℚ))

/-- `calculateSimilarity(str1, str2)` (lines 193-219): clean both strings,
then exact match, containment, and the best of edit-distance score and Dice
score. -/
def calculateSimilarity (str1 str2 : List Char) : ℚ :=
  if str1 = [] ∨ str2 = [] then 0
  else
    let s1 := cleanText str1
    let s2 := cleanText str2
    if s1 = s2 then 1
    else if containsSub s1 s2 || containsSub s2 s1 then
      let lenRatio : ℚ := (min s1.length s2.length : ℚ) / (max s1.length s2.length : ℚ)
      4 / 5 + lenRatio * (1 / 5)
    else
      let distance := editDistance s1 s2
      let maxLength := max s1.length s2.length
      let editScore : ℚ := if maxLength = 0 then 1 else 1 - (distance : ℚ) / (maxLength : ℚ)
      let diceScore := calculateDiceSimilarity s1 s2
      max editScore diceScore

/-! ## Small parsing utilities shared by the match/merge pipeline -/

/-- Lazy scan of `.*?(\)|）)`: skip to the first close parenthesis of either
kind, failing on a line terminator or end of input. -/
def findCloseParen : List Char → Option (List Char)
  | [] => none
  | ')' :: rest => some rest
  | '）' :: rest => some rest
  | c :: rest => if isLineTerm c then none else findCloseParen rest

/-- Matcher for \x2f(\(|（).*?(\)|）)\x2fg. -/
def mParens (_ : Bool) (l : List Char) : Option (List Char × List Char) :=
  match l with
  | '(' :: cs => (findCloseParen cs).map (fun rest => ([], rest))
  | '（' :: cs => (findCloseParen cs).map (fun rest => ([], rest))
  | _ => none

/-- `removeParentheses(text)` (lines 59-63). -/
def removeParentheses (text : List Char) : List Char :=
  if text.isEmpty then []
  else trimL (runRepl mParens text)

/-- Split on the first occurrence of `MERGE_DELIMITER` (`$$$`), keeping the
part before it (`String.prototype.split(...)[0]`). -/
def takeUntilDelim : List Char → List Char
  | [] => []
  | l@(c :: cs) =>
    if startsWithL (("$$$").toList) l then []
    else c :: takeUntilDelim cs

/-- Split `^([^:]+):(.+)$` : the text before the first colon (nonempty) and
the text after it (nonempty, free of line terminators so that `(.+)$` can
span it). -/
def splitFirstColon (l : List Char) : Option (List Char × List Char) :=
  match l.span (fun c => c ≠ ':') with
  | (pre, ':' :: post) =>
    if pre ≠ [] ∧ post ≠ [] ∧ post.all (fun c => !isLineTerm c) then some (pre, post)
    else none
  | _ => none

/-- Test for \x2f^https?:\/\/\x2fi. -/
def startsWithHttpScheme (l : List Char) : Bool :=
  match stripLitCI (("http").toList) l with
  | none => false
  | some r =>
    let r2 := match stripLitCI (("s").toList) r with | some r2 => r2 | none => r
    startsWithL (("://").toList) r2

/-- `sanitizeUrl(urlStr)` (lines 71-108). -/
def sanitizeUrl (urlStr : List Char) : List Char :=
  if urlStr.isEmpty then []
  else
    let clean := trimL (takeUntilDelim urlStr)
    if startsWithL (("//").toList) clean then ("https:").toList ++ clean
    else
      match splitFirstColon clean with
      | some (pre, body) =>
        let pfx := pre.map Char.toLower
        if pfx = ("http").toList ∨ pfx = ("https").toList then clean
        else if startsWithHttpScheme body then body
        else if startsWithL (("//").toList) body then ("https:").toList ++ body
        else body
      | none => clean

/-- Year and month as extracted by `parseDate` (lines 115-123). -/
structure YearMonth where
  year : Option Int
  month : Option Int
deriving DecidableEq, Repr

/-- `parseDate(dateStr)` (lines 115-123).  The source delegates to the
JavaScript `Date` constructor (a host builtin); embedded here for the
ISO-like `YYYY`, `YYYY-MM` and `YYYY-MM-DD` shapes the engine receives, with
anything else (including the empty string) parsing to `{year: null, month:
null}`. -/
def parseDate (dateStr : List Char) : YearMonth :=
  if dateStr.isEmpty then ⟨none, none⟩
  else
    let parts := dateStr.splitOn '-'
    match parts with
    | [y] =>
      if y ≠ [] ∧ y.all isDigitChar then ⟨some (digitsToNat y), some 1⟩ else ⟨none, none⟩
    | [y, m] =>
      if y ≠ [] ∧ y.all isDigitChar ∧ m ≠ [] ∧ m.all isDigitChar ∧
          1 ≤ digitsToNat m ∧ digitsToNat m ≤ 12 then
        ⟨some (digitsToNat y), some (digitsToNat m)⟩
      else ⟨none, none⟩
    | [y, m, d] =>
      if y ≠ [] ∧ y.all isDigitChar ∧ m ≠ [] ∧ m.all isDigitChar ∧
          d ≠ [] ∧ d.all isDigitChar ∧ 1 ≤ digitsToNat m ∧ digitsToNat m ≤ 12 ∧
          1 ≤ digitsToNat d ∧ digitsToNat d ≤ 31 then
        ⟨some (digitsToNat y), some (digitsToNat m)⟩
      else ⟨none, none⟩
    | _ => ⟨none, none⟩

/-! ## ConflictDetector (merge-util.js lines 228-545) -/

/-- Case-insensitive keyword alternation, tried in regex order. -/
def altLitCI (pats : List (List Char)) (l : List Char) : Option (List Char) :=
  match pats with
  | [] => none
  | p :: ps => stripLitCI p l <|> altLitCI ps l

/-- True at a position where `(\(|（)\d{4}(\)|）).*$` matches: a
parenthesized four-digit year whose tail is free of line terminators. -/
def matchYearAllAt (l : List Char) : Bool :=
  match l with
  | o :: d1 :: d2 :: d3 :: d4 :: c :: rest =>
    (o = '(' || o = '（') && isDigitChar d1 && isDigitChar d2 && isDigitChar d3 &&
    isDigitChar d4 && (c = ')' || c = '）') && rest.all (fun x => !isLineTerm x)
  | _ => false

/-- Replace the leftmost `(\(|（)\d{4}(\)|）).*$` match by the empty string:
truncate at a parenthesized year. -/
def truncYearParen : List Char → List Char
  | [] => []
  | c :: cs => if matchYearAllAt (c :: cs) then [] else c :: truncYearParen cs

/-- True at a position where `\s*from\s+.*$` matches (`from` case-folded):
optional whitespace, `from`, at least one whitespace character, then a tail
the dot can span. -/
def matchFromAt (l : List Char) : Bool :=
  let l1 := l.dropWhile isJsWs
  match stripLitCI (("from").toList) l1 with
  | some r =>
    match r with
    | c :: _ => isJsWs c && (r.dropWhile isJsWs).all (fun x => !isLineTerm x)
    | [] => false
  | none => false

/-- Replace the leftmost `\s*from\s+.*$` match by the empty string. -/
def stripFromSuffix : List Char → List Char
  | [] => []
  | c :: cs => if matchFromAt (c :: cs) then [] else c :: stripFromSuffix cs

/-- Matcher for \x2f(\(|（)(续篇|TV版|无修|未删减|完整版)(\)|）)\x2fgi. -/
def mMetaSuffix (_ : Bool) (l : List Char) : Option (List Char × List Char) :=
  match l with
  | o :: cs =>
    if o = '(' || o = '（' then
      match altLitCI [("续篇").toList, ("TV版").toList, ("无修").toList,
          ("未删减").toList, ("完整版").toList] cs with
      | some r =>
        match r with
        | c :: rest => if c = ')' || c = '）' then some (([], rest)) else none
        | [] => none
      | none => none
    else none
  | [] => none

/-- The `lightClean` closure of `checkTitleSubtitleConflict` (lines 232-249):
simplify script, strip metadata suffixes, truncate at a year parenthetical,
drop bracket tags and the `from` suffix, trim and lower-case. -/
def lightCleanSubtitle (s : List Char) : List Char :=
  if s.isEmpty then []
  else
    (trimL (stripFromSuffix (runRepl mBrackets
      (truncYearParen (runRepl mMetaSuffix (simplized s)))))).map Char.toLower

/-- The separator class `^[\s:：\-–—(（\[【]` of `checkTitleSubtitleConflict`. -/
def isSepChar (c : Char) : Bool :=
  isJsWs c || c = ':' || c = '：' || c = '-' || c = '–' || c = '—' || c = '(' ||
  c = '（' || c = '[' || c = '【'

/-- `slice.replace(separatorRegex, '')`: the regex is anchored and matches a
single character, so only a leading separator is removed. -/
def dropLeadingSep (l : List Char) : List Char :=
  match l with
  | c :: cs => if isSepChar c then cs else l
  | [] => []

/-- `checkTitleSubtitleConflict(titleA, titleB)` (lines 228-281). -/
def checkTitleSubtitleConflict (titleA titleB : List Char) : Bool :=
  if titleA = [] ∨ titleB = [] then false
  else
    let t1 := lightCleanSubtitle titleA
    let t2 := lightCleanSubtitle titleB
    if t1 = t2 then false
    else
      let pr := if t1.length < t2.length then (t1, t2) else (t2, t1)
      let shrt := pr.1
      let lng := pr.2
      if startsWithL shrt lng then
        if lng.length = shrt.length then false
        else
          let nextChar := lng.getD shrt.length ' '
          if isSepChar nextChar then
            let subtitle := trimL (dropLeadingSep (lng.drop shrt.length))
            decide (subtitle.length > 2)
          else false
      else false

/-! ### Season markers (`extractSeasonMarkers`, lines 291-331) -/

/-- Core of pattern `(?:第)?(\d+)[季期部]` at one position (without the
optional `第`): a digit run followed by one of the three class characters. -/
def tryP1Core (l : List Char) : Option (List Char) :=
  let (ds, rest) := takeDigits l
  if ds.isEmpty then none
  else
    match rest with
    | c :: _ => if c = '季' || c = '期' || c = '部' then some ds else none
    | [] => none

/-- Leftmost match of `(?:第)?(\d+)[季期部]`, returning `parseInt` of the
captured digits. -/
def matchP1 : List Char → Option Nat
  | [] => none
  | c :: cs =>
    match (if c = '第' then tryP1Core cs else none) <|> tryP1Core (c :: cs) with
    | some ds => some (digitsToNat ds)
    | none => matchP1 cs

/-- Pattern `season\s*(\d+)` at one position (case-sensitive: the regex
carries no flag and the scanned text is already lower-cased). -/
def tryP2At (l : List Char) : Option (List Char) := do
  let r ← stripLit (("season").toList) l
  let (ds, _) := takeDigits (r.dropWhile isJsWs)
  if ds.isEmpty then none else some ds

/-- Leftmost match of `season\s*(\d+)`. -/
def matchP2 : List Char → Option Nat
  | [] => none
  | c :: cs =>
    match tryP2At (c :: cs) with
    | some ds => some (digitsToNat ds)
    | none => matchP2 cs

/-- Pattern `s(\d+)` at one position. -/
def tryP3At (l : List Char) : Option (List Char) :=
  match l with
  | 's' :: r =>
    let (ds, _) := takeDigits r
    if ds.isEmpty then none else some ds
  | _ => none

/-- Leftmost match of `s(\d+)`. -/
def matchP3 : List Char → Option Nat
  | [] => none
  | c :: cs =>
    match tryP3At (c :: cs) with
    | some ds => some (digitsToNat ds)
    | none => matchP3 cs

/-- Pattern `part\s*(\d+)` at one position. -/
def tryP4At (l : List Char) : Option (List Char) := do
  let r ← stripLit (("part").toList) l
  let (ds, _) := takeDigits (r.dropWhile isJsWs)
  if ds.isEmpty then none else some ds

/-- Leftmost match of `part\s*(\d+)`. -/
def matchP4 : List Char → Option Nat
  | [] => none
  | c :: cs =>
    match tryP4At (c :: cs) with
    | some ds => some (digitsToNat ds)
    | none => matchP4 cs

/-- Match of `[^0-9](\d)$`: a single trailing digit preceded by a non-digit
character. -/
def matchP9 (l : List Char) : Option Nat :=
  match l.reverse with
  | d :: c :: _ =>
    if isDigitChar d && !isDigitChar c then some (digitsToNat [d]) else none
  | _ => none

/-- `markers.add`, with JavaScript `Set` semantics (ignore duplicates). -/
def addMarker (m : List Char) (ms : List (List Char)) : List (List Char) :=
  if m ∈ ms then ms else ms ++ [m]

/-- The `S<n>` marker text. -/
def markS (n : Nat) : List Char := 'S' :: natToDigits n

/-- The `P<n>` marker text. -/
def markP (n : Nat) : List Char := 'P' :: natToDigits n

/-- `extractSeasonMarkers(title, typeDesc)` (lines 291-331), pattern rules in
array order, then the type-description supplements, then the Chinese-numeral
loop (whose table ends with a literal `final` key, kept faithfully). -/
def extractSeasonMarkers (title typeDesc : List Char) : List (List Char) :=
  let t := cleanText title
  let ty := cleanText typeDesc
  let m : List (List Char) := []
  let m := match matchP1 t with | some n => addMarker (markS n) m | none => m
  let m := match matchP2 t with | some n => addMarker (markS n) m | none => m
  let m := match matchP3 t with | some n => addMarker (markS n) m | none => m
  let m := match matchP4 t with | some n => addMarker (markP n) m | none => m
  let m := if containsSub t (("ova").toList) || containsSub t (("oad").toList) then
      addMarker (("OVA").toList) m else m
  let m := if containsSub t (("剧场版").toList) || containsSub t (("movie").toList) ||
      containsSub t (("film").toList) || containsSub t (("电影").toList) then
      addMarker (("MOVIE").toList) m else m
  let m := if containsSub t (("续篇").toList) || containsSub t (("续集").toList) then
      addMarker (("SEQUEL").toList) m else m
  let m := if containsSub t (("sp").toList) then addMarker (("SP").toList) m else m
  let m := match matchP9 t with | some n => addMarker (markS n) m | none => m
  let m := if containsSub ty (("剧场版").toList) || containsSub ty (("movie").toList) ||
      containsSub ty (("film").toList) || containsSub ty (("电影").toList) then
      addMarker (("MOVIE").toList) m else m
  let m := if containsSub ty (("ova").toList) || containsSub ty (("oad").toList) then
      addMarker (("OVA").toList) m else m
  let m := if containsSub ty (("sp").toList) || containsSub ty (("special").toList) then
      addMarker (("SP").toList) m else m
  let m := if containsSub t (("第一季").toList) then addMarker (markS 1) m else m
  let m := if containsSub t (("第二季").toList) then addMarker (markS 2) m else m
  let m := if containsSub t (("第三季").toList) then addMarker (markS 3) m else m
  let m := if containsSub t (("第四季").toList) then addMarker (markS 4) m else m
  let m := if containsSub t (("第五季").toList) then addMarker (markS 5) m else m
  let m := if containsSub t (("第final季").toList) then addMarker (markS 99) m else m
  m

/-! ### Media type and exemptions (lines 340-429) -/

/-- The two values of `getStrictMediaType`. -/
inductive MediaKind where
  | movie
  | tv
deriving DecidableEq, Repr

/-- `getStrictMediaType(title, typeDesc)` (lines 340-351). -/
def getStrictMediaType (title typeDesc : List Char) : Option MediaKind :=
  let fullText := (title ++ ' ' :: typeDesc).map Char.toLower
  let hasMovie := containsSub fullText (("电影").toList)
  let hasTV := containsSub fullText (("电视剧").toList)
  if hasMovie && !hasTV then some MediaKind.movie
  else if hasTV && !hasMovie then some MediaKind.tv
  else none

/-- The `lightClean` closure of `checkTheatricalExemption` (lines 368-376):
like the subtitle variant but without metadata-suffix removal and without
lower-casing. -/
def lightCleanTheatrical (s : List Char) : List Char :=
  if s.isEmpty then []
  else trimL (stripFromSuffix (runRepl mBrackets (truncYearParen (simplized s))))

/-- The separator class `[\s 　]` of the space-structure regex
(NBSP and ideographic space are spelled out in the source although `\s`
already contains them). -/
def isStructSep (c : Char) : Bool :=
  isJsWs c || c.toNat = 160 || c.toNat = 12288

/-- Test of `.+[\s 　].+`: some position holds a separator with a
dot-matchable character on each side. -/
def hasSpaceStructure : List Char → Bool
  | a :: b :: c :: rest =>
    (!isLineTerm a && isStructSep b && !isLineTerm c) ||
    hasSpaceStructure (b :: c :: rest)
  | _ => false

/-- `checkTheatricalExemption(titleA, titleB, typeDescA, typeDescB)`
(lines 362-384). -/
def checkTheatricalExemption (titleA titleB typeDescA typeDescB : List Char) : Bool :=
  if containsSub typeDescA (("剧场版").toList) || containsSub typeDescB (("剧场版").toList) then
    hasSpaceStructure (lightCleanTheatrical titleA) &&
    hasSpaceStructure (lightCleanTheatrical titleB)
  else false

/-- `checkMediaTypeMismatch(titleA, titleB, typeDescA, typeDescB, countA,
countB)` (lines 400-429). -/
def checkMediaTypeMismatch (titleA titleB typeDescA typeDescB : List Char)
    (countA countB : Nat) : Bool :=
  let mediaA := getStrictMediaType titleA typeDescA
  let mediaB := getStrictMediaType titleB typeDescB
  if mediaA = none ∨ mediaB = none ∨ mediaA = mediaB then false
  else if checkTheatricalExemption titleA titleB typeDescA typeDescB then false
  else if 0 < countA ∧ 0 < countB then
    if 5 < Nat.dist countA countB then true else false
  else true

/-- `m.startsWith('S')` on a marker string. -/
def startsWithS (m : List Char) : Bool :=
  match m with
  | 'S' :: _ => true
  | _ => false

/-- `checkSeasonMismatch(titleA, titleB, typeA, typeB)` (lines 439-465). -/
def checkSeasonMismatch (titleA titleB typeA typeB : List Char) : Bool :=
  let markersA := extractSeasonMarkers titleA typeA
  let markersB := extractSeasonMarkers titleB typeB
  if markersA.length = 0 ∧ markersB.length = 0 then false
  else if 0 < markersA.length ∧ 0 < markersB.length then
    markersA.any (fun m =>
      startsWithS m && !(decide (m ∈ markersB)) && markersB.any startsWithS)
  else if markersA.length ≠ markersB.length then
    if checkTheatricalExemption titleA titleB typeA typeB then false else true
  else false

/-- `hasSameSeasonMarker(titleA, titleB, typeA, typeB)` (lines 476-487). -/
def hasSameSeasonMarker (titleA titleB typeA typeB : List Char) : Bool :=
  let seasonsA := (extractSeasonMarkers titleA typeA).filter startsWithS
  let seasonsB := (extractSeasonMarkers titleB typeB).filter startsWithS
  if 0 < seasonsA.length ∧ 0 < seasonsB.length then
    seasonsA.any (fun sa => decide (sa ∈ seasonsB))
  else false

/-- `checkDateMatch(dateA, dateB)` (lines 495-513); the `-1` sentinel keeps
its source meaning of a hard rejection. -/
def checkDateMatch (dateA dateB : YearMonth) : ℚ :=
  match dateA.year, dateB.year with
  | some ya, some yb =>
    let yearDiff := (ya - yb).natAbs
    if 1 < yearDiff then -1
    else if yearDiff = 0 then
      match dateA.month, dateB.month with
      | some ma, some mb =>
        let monthDiff := (ma - mb).natAbs
        if 2 < monthDiff then 0
        else if monthDiff = 0 then 1 / 5 else 1 / 10
      | _, _ => 1 / 10
    else 0
  | _, _ => 0

/-- `isMergeRatioValid(mergedCount, totalA, totalB, sourceA, sourceB)`
(lines 526-545). -/
def isMergeRatioValid (mergedCount totalA totalB : Nat)
    (sourceA sourceB : List Char) : Bool :=
  if sourceA = ("animeko").toList ∨ sourceB = ("animeko").toList then true
  else
    let maxTotal := max totalA totalB
    if maxTotal = 0 then false
    else
      let ratio : ℚ := (mergedCount : ℚ) / (maxTotal : ℚ)
      if 5 < maxTotal ∧ ratio < 18 / 100 then false else true

/-! ## Data model (AnimeEntry / EpisodeLink, spec section 3; fields as used
by merge-util.js).  Ids are embedded as strings: every comparison in the
source goes through `String(...)` coercion or `Set` membership on values of
one consistent type, and the merged id is stored back in decimal string
form. -/

/-- An episode link.  Absent (`undefined`) string fields are embedded as the
empty string, which is exactly the falsy behaviour the source relies on. -/
structure EpLink where
  title : List Char
  name : List Char
  url : List Char
deriving DecidableEq, Repr, Inhabited

/-- An episode link together with its original position, the shape produced
by `filterEpisodes`. -/
structure IdxLink where
  link : EpLink
  originalIndex : Nat
deriving DecidableEq, Repr, Inhabited

/-- An anime entry.  `links = none` embeds a record whose link list is not
loaded; `isMergedFlag` embeds the `_isMerged` marker consulted by the final
cleanup. -/
structure Anime where
  animeId : List Char
  bangumiId : List Char
  animeTitle : List Char
  source : List Char
  startDate : List Char
  typeDescription : List Char
  episodeCount : Nat
  links : Option (List EpLink)
  isMergedFlag : Bool
deriving DecidableEq, Repr, Inhabited

/-! ## EpisodeAligner (merge-util.js lines 642-861) -/

/-- Result of `extractEpisodeInfo`. -/
structure EpInfo where
  isMovie : Bool
  num : Option ℚ
  isSpecial : Bool
deriving DecidableEq, Repr

/-- `parseFloat` value of `\d+(\.\d+)?`. -/
def parseNumQ (intDs fracDs : List Char) : ℚ :=
  (digitsToNat intDs : ℚ) + (digitsToNat fracDs : ℚ) / ((10 : ℚ) ^ fracDs.length)

/-- Greedy parse of `(\d+(\.\d+)?)` with nothing after it (strong-prefix
pattern): the maximal digit run, optionally a dot and a maximal fraction. -/
def numAfter (l : List Char) : Option ℚ :=
  let (ds, r) := takeDigits l
  if ds.isEmpty then none
  else
    match r with
    | '.' :: r2 =>
      let (fs, _) := takeDigits r2
      if fs.isEmpty then some (digitsToNat ds) else some (parseNumQ ds fs)
    | _ => some (digitsToNat ds)

/-- Strong-prefix pattern `(?:ep|o|s|part|第)\s*(\d+(\.\d+)?)` at one
position, alternatives in regex order. -/
def tryStrongAt (l : List Char) : Option ℚ := do
  let r ← altLitCI [("ep").toList, ("o").toList, ("s").toList,
      ("part").toList, ("第").toList] l
  numAfter (r.dropWhile isJsWs)

/-- Leftmost strong-prefix match. -/
def matchStrong : List Char → Option ℚ
  | [] => none
  | c :: cs => tryStrongAt (c :: cs) <|> matchStrong cs

/-- The suffix `(?:话|集|\s|$)` of the weak-prefix pattern. -/
def weakSuffixOk (l : List Char) : Bool :=
  match l with
  | [] => true
  | c :: _ => c = '话' || c = '集' || isJsWs c

/-- Number followed by the weak suffix.  Backtracking into a shorter
fraction or integer run always leaves a digit or a dot as the next
character, which the suffix class rejects, so only the maximal parse can
succeed. -/
def numWithSuffix (l : List Char) : Option ℚ :=
  let (ds, r) := takeDigits l
  if ds.isEmpty then none
  else
    match r with
    | '.' :: r2 =>
      let (fs, r3) := takeDigits r2
      if fs.isEmpty then none
      else if weakSuffixOk r3 then some (parseNumQ ds fs) else none
    | _ => if weakSuffixOk r then some (digitsToNat ds) else none

/-- Leftmost match of `(?:^|\s)(\d+(\.\d+)?)(?:话|集|\s|$)`: the `^`
alternative is only available at position 0, the `\s` alternative consumes
the whitespace character. -/
def matchWeak : Bool → List Char → Option ℚ
  | _, [] => none
  | atStart, c :: cs =>
    (if atStart then numWithSuffix (c :: cs) else none) <|>
    (if isJsWs c then numWithSuffix cs else none) <|>
    matchWeak false cs

/-- Test of `^(s|o|sp|special)\d`: `test` succeeds when any alternative
followed by a digit matches at the start. -/
def isSpecialHead (t : List Char) : Bool :=
  let chk : List Char → Bool := fun pat =>
    match stripLitCI pat t with
    | some (d :: _) => isDigitChar d
    | _ => false
  chk (("s").toList) || chk (("o").toList) || chk (("sp").toList) ||
  chk (("special").toList)

/-- `extractEpisodeInfo(title)` (lines 642-670). -/
def extractEpisodeInfo (title : List Char) : EpInfo :=
  let t := cleanText title
  let isMovie := containsSub t (("剧场版").toList) || containsSub t (("movie").toList) ||
    containsSub t (("film").toList)
  let isSpecial := isSpecialHead t
  let num :=
    match matchStrong t with
    | some q => some q
    | none => matchWeak true t
  ⟨isMovie, num, isSpecial⟩

/-- `getSpecialEpisodeType(title)` (lines 678-688): the title is lower-cased
before the substring checks; the last check still looks for the capitalized
literal `Bloopers`. -/
def getSpecialEpisodeType (title : List Char) : Option (List Char) :=
  if title.isEmpty then none
  else
    let t := title.map Char.toLower
    if containsSub t (("opening").toList) then some (("opening").toList)
    else if containsSub t (("ending").toList) then some (("ending").toList)
    else if containsSub t (("interview").toList) then some (("interview").toList)
    else if containsSub t (("Bloopers").toList) then some (("Bloopers").toList)
    else none

/-- `filterEpisodes(links, filterRegex)` (lines 697-711); the compiled
filter pattern is embedded as a predicate on titles. -/
def filterEpisodes (links : Option (List EpLink))
    (filterRx : Option (List Char → Bool)) : List IdxLink :=
  match links with
  | none => []
  | some ls =>
    let withIdx := ls.enum.map (fun pr => IdxLink.mk pr.2 pr.1)
    match filterRx with
    | none => withIdx
    | some rx =>
      withIdx.filter (fun item =>
        let t := if item.link.title ≠ [] then item.link.title else item.link.name
        !rx t)

/-- The running sums of one offset evaluation. -/
structure AlignAcc where
  totalText : ℚ
  rawSum : ℚ
  matchCount : Nat
  diffs : List (ℚ × Nat)
deriving Repr

/-- `numericDiffs.set(diffKey, count + 1)`.  The source keys the map by
`diff.toFixed(4)`; diffs are embedded exactly, which distinguishes keys
whenever the four-decimal rendering does. -/
def addDiff (q : ℚ) : List (ℚ × Nat) → List (ℚ × Nat)
  | [] => [(q, 1)]
  | (k, c) :: rest => if k = q then (k, c + 1) :: rest else (k, c) :: addDiff q rest

/-- `numericDiffs.get(key) || 0`. -/
def diffGet (q : ℚ) : List (ℚ × Nat) → Nat
  | [] => 0
  | (k, c) :: rest => if k = q then c else diffGet q rest

/-- `minNormalA` / `minNormalB`: minimum episode number over the links that
carry a number and are not special. -/
def minNormalNum (links : List IdxLink) : Option ℚ :=
  links.foldl (fun acc item =>
    let info := extractEpisodeInfo item.link.title
    match info.num with
    | some n =>
      if info.isSpecial = false then
        match acc with
        | none => some n
        | some a => if n < a then some n else some a
      else acc
    | none => acc) none

/-- The inner pair loop of `findBestAlignmentOffset` for one offset
(lines 757-820).  In the season-shift bonus the source evaluates
`infoA.num - infoB.num` even when a side is `null`, which JavaScript
coerces to `0`; this is embedded by `Option.getD 0`. -/
def scoreOffsetFold (p s : List IdxLink) (seasonShift : Option ℚ)
    (offset : Int) : AlignAcc :=
  (List.range s.length).foldl (fun acc (i : Nat) =>
    let pIndex : Int := (i : Int) + offset
    if 0 ≤ pIndex ∧ pIndex < (p.length : Int) then
      let titleA := (p.getD pIndex.toNat default).link.title
      let titleB := (s.getD i default).link.title
      let infoA := extractEpisodeInfo titleA
      let infoB := extractEpisodeInfo titleB
      let s1 : ℚ := if infoA.isMovie ≠ infoB.isMovie then -5 else 0
      let spA := getSpecialEpisodeType titleA
      let spB := getSpecialEpisodeType titleB
      let s2 := if spA.isSome || spB.isSome then
          (if spA ≠ spB then s1 - 10 else s1 + 3) else s1
      let s3 := if infoA.isSpecial = infoB.isSpecial then s2 + 3 else s2
      let s4 :=
        match seasonShift with
        | some sh =>
          if infoA.isSpecial = false ∧ infoB.isSpecial = false then
            (if infoA.num.getD 0 - infoB.num.getD 0 = sh then s3 + 5 else s3)
          else s3
        | none => s3
      let sim := calculateSimilarity titleA titleB
      let s5 := s4 + sim
      let s6 :=
        match infoA.num, infoB.num with
        | some na, some nb => if na = nb then s5 + 2 else s5
        | _, _ => s5
      let diffs2 :=
        match infoA.num, infoB.num with
        | some na, some nb => addDiff (nb - na) acc.diffs
        | _, _ => acc.diffs
      { totalText := acc.totalText + s6, rawSum := acc.rawSum + sim,
        matchCount := acc.matchCount + 1, diffs := diffs2 }
    else acc) ⟨0, 0, 0, []⟩

/-- The final score of one offset (lines 822-849): `none` when no pair was
in range (`matchCount = 0`). -/
def offsetFinalScore (p s : List IdxLink) (seasonShift : Option ℚ)
    (offset : Int) : Option ℚ :=
  let acc := scoreOffsetFold p s seasonShift offset
  if acc.matchCount = 0 then none
  else
    let base := acc.totalText / (acc.matchCount : ℚ)
    let maxFrequency := acc.diffs.foldl (fun m pr => max m pr.2) 0
    let consistencyRatio : ℚ := (maxFrequency : ℚ) / (acc.matchCount : ℚ)
    let avgRaw := acc.rawSum / (acc.matchCount : ℚ)
    let withCons := if consistencyRatio > 3 / 5 ∧ avgRaw > 33 / 100 then base + 2 else base
    let withCov := withCons + min ((acc.matchCount : ℚ) * (3 / 20)) (3 / 2)
    let zeroCnt := diffGet 0 acc.diffs
    some (withCov + (zeroCnt : ℚ) * 2)

/-- The offsets `-maxShift, ..., maxShift` visited by the search loop. -/
def alignOffsets (maxShift : Nat) : List Int :=
  (List.range (2 * maxShift + 1)).map (fun (k : Nat) => (k : Int) - (maxShift : Int))

/-- The search loop of `findBestAlignmentOffset`: best offset and best final
score, starting from `(0, -999)` and updating on strictly greater scores. -/
def alignmentSearch (p s : List IdxLink) (seasonShift : Option ℚ)
    (maxShift : Nat) : Int × ℚ :=
  (alignOffsets maxShift).foldl (fun best o =>
    match offsetFinalScore p s seasonShift o with
    | none => best
    | some fs => if fs > best.2 then (o, fs) else best) (0, -999)

/-- `seasonShift = minNormalA - minNormalB`, defined only when both sides
have a numbered non-special episode (lines 745-746). -/
def seasonShiftOf (p s : List IdxLink) : Option ℚ :=
  match minNormalNum p, minNormalNum s with
  | some a, some b => some (a - b)
  | _, _ => none

/-- `findBestAlignmentOffset(primaryLinks, secondaryLinks)` (lines 721-861). -/
def findBestAlignmentOffset (p s : List IdxLink) : Int :=
  if p.isEmpty || s.isEmpty then 0
  else
    let seasonShift := seasonShiftOf p s
    let maxShift := min (max p.length s.length) 15
    let best := alignmentSearch p s seasonShift maxShift
    if best.2 > 3 / 10 then best.1 else 0

/-! ## MatchFinder (`findSecondaryMatch`, merge-util.js lines 555-633) -/

/-- True at a position where `\(\d{4}\).*$` matches (ASCII parentheses
only, as in the title preparation of `findSecondaryMatch`). -/
def matchYearAsciiAt (l : List Char) : Bool :=
  match l with
  | '(' :: d1 :: d2 :: d3 :: d4 :: ')' :: rest =>
    isDigitChar d1 && isDigitChar d2 && isDigitChar d3 && isDigitChar d4 &&
    rest.all (fun x => !isLineTerm x)
  | _ => false

/-- Truncate at the leftmost `\(\d{4}\).*$` match. -/
def truncYearAscii : List Char → List Char
  | [] => []
  | c :: cs => if matchYearAsciiAt (c :: cs) then [] else c :: truncYearAscii cs

/-- Matcher for \x2f【(电影|电视剧)】\x2fg. -/
def mMediaTag (_ : Bool) (l : List Char) : Option (List Char × List Char) :=
  match l with
  | '【' :: cs =>
    match altLit [("电影").toList, ("电视剧").toList] cs with
    | some r =>
      match r with
      | '】' :: rest => some (([], rest))
      | _ => none
    | none => none
  | _ => none

/-- The similarity title of `findSecondaryMatch`: year suffix removed, media
tags removed, trimmed. -/
def titleForSim (raw : List Char) : List Char :=
  trimL (runRepl mMediaTag (truncYearAscii raw))

/-- `episodeCount || (links ? links.length : 0)`. -/
def effectiveCount (a : Anime) : Nat :=
  if a.episodeCount ≠ 0 then a.episodeCount
  else
    match a.links with
    | some ls => ls.length
    | none => 0

/-- `findSecondaryMatch(primaryAnime, secondaryList)` (lines 555-633). -/
def findSecondaryMatch (primaryAnime : Anime) (secondaryList : List Anime) :
    Option Anime :=
  if secondaryList.isEmpty then none
  else
    let rawP := primaryAnime.animeTitle
    let pSim := titleForSim rawP
    let pDate := parseDate primaryAnime.startDate
    let pCount := effectiveCount primaryAnime
    let best := secondaryList.foldl (fun (best : Option Anime × ℚ) secAnime =>
      let rawS := secAnime.animeTitle
      let sDate := parseDate secAnime.startDate
      let sSim := titleForSim rawS
      let sCount := effectiveCount secAnime
      if checkMediaTypeMismatch rawP rawS primaryAnime.typeDescription
          secAnime.typeDescription pCount sCount = true then best
      else
        let hasStructureConflict := checkTitleSubtitleConflict rawP rawS
        let isSeasonExactMatch := hasSameSeasonMarker pSim sSim
          primaryAnime.typeDescription secAnime.typeDescription
        let dateScore := checkDateMatch pDate sDate
        if isSeasonExactMatch = false ∧ dateScore = -1 then best
        else if checkSeasonMismatch pSim sSim primaryAnime.typeDescription
            secAnime.typeDescription = true then best
        else
          let scoreFull := calculateSimilarity pSim sSim
          let scoreBase := calculateSimilarity (removeParentheses pSim)
            (removeParentheses sSim)
          let score0 := max scoreFull scoreBase
          let score1 := if hasStructureConflict = true then score0 - 3 / 20 else score0
          let score2 := if dateScore ≠ -1 then score1 + dateScore else score1
          if score2 > best.2 then (some secAnime, score2) else best) (none, 0)
    if best.2 ≥ 3 / 5 then best.1 else none

/-! ## MergeOrchestrator (`applyMergeLogic`, merge-util.js lines 888-1129)

The orchestrator reads two collaborators that the spec declares external:
the cache (`globals.animes`, read through a find-by-id) is passed as a list
searched with `find?`, and the insert collaborator `addAnime` is embedded by
the accumulated `newMerged` output list (the source pushes the same object
to both).  Logging and the mapping-entry bookkeeping (lines 1005-1066) only
feed `log` calls and are omitted.  `JSON.parse(JSON.stringify(...))` is a
value copy, which is the identity on immutable embedded values. -/

/-- `MERGE_DELIMITER` (line 12). -/
def MERGE_DELIMITER : List Char := ("$$$").toList

/-- `DISPLAY_CONNECTOR` (line 14). -/
def DISPLAY_CONNECTOR : Char := '&'

/-- `Array.prototype.join` with a one-character separator. -/
def joinWith (sep : Char) (parts : List (List Char)) : List Char :=
  List.intercalate [sep] parts

/-- `String.prototype.replace` with a plain string pattern: replace the
first occurrence only. -/
def replaceFirstSub (pat repl : List Char) : List Char → List Char
  | [] => if startsWithL pat [] then repl else []
  | c :: cs =>
    if startsWithL pat (c :: cs) then repl ++ (c :: cs).drop pat.length
    else c :: replaceFirstSub pat repl cs

/-- Capture of `^【([^】\d]+)(?:\d*)】` : the bracketed source label of a
secondary episode title (line 1038). -/
def labelOf (l : List Char) : Option (List Char) :=
  match l with
  | '【' :: rest =>
    let sp := rest.span (fun c => c ≠ '】' && !isDigitChar c)
    if sp.1.isEmpty then none
    else
      match sp.2.dropWhile isDigitChar with
      | '】' :: _ => some sp.1
      | _ => none
  | _ => none

/-- `targetLink.title.replace(^【([^】]+)】, 【content&label】)` (lines
1041-1044): anchored, so only a leading bracket group is rewritten. -/
def rewriteBracketLabel (sLabel : List Char) (t : List Char) : List Char :=
  match t with
  | '【' :: rest =>
    let sp := rest.span (fun x => x ≠ '】')
    match sp.2 with
    | '】' :: tail =>
      if sp.1.isEmpty then t
      else '【' :: sp.1 ++ DISPLAY_CONNECTOR :: sLabel ++ '】' :: tail
    | _ => t
  | _ => t

/-- The title-update step of the fusion loop (lines 1035-1045): derive the
display label from the secondary title when it carries one, else use the
secondary source name. -/
def fuseTitle (secSrc sTitle tTitle : List Char) : List Char :=
  let sLabel :=
    if sTitle ≠ [] then
      match labelOf sTitle with
      | some lbl => trimL lbl
      | none => secSrc
    else secSrc
  rewriteBracketLabel sLabel tTitle

/-- The fusion loop over the filtered secondary links (lines 996-1054):
pairs `filteredM[k]` with the UNFILTERED derived link at `k + offset`,
skips special-type mismatches, fuses urls and titles in place, and counts
merged pairs.  Returns the updated derived links and `mergedCount`. -/
def fuseLinks (cps secSrc : List Char) (offset : Int) (fm : List IdxLink)
    (dLinks : List EpLink) : List EpLink × Nat :=
  (List.range fm.length).foldl (fun st (k : Nat) =>
    let links := st.1
    let cnt := st.2
    let pIndex : Int := (k : Int) + offset
    let sourceLink := (fm.getD k default).link
    if 0 ≤ pIndex ∧ pIndex < (links.length : Int) then
      let pn := pIndex.toNat
      let target := links.getD pn default
      if getSpecialEpisodeType target.title ≠ getSpecialEpisodeType sourceLink.title then
        (links, cnt)
      else
        let idB := sanitizeUrl sourceLink.url
        let cu := target.url
        let cu2 :=
          if containsSub cu MERGE_DELIMITER = false ∧
              startsWithL (cps ++ [':']) cu = false then
            cps ++ ':' :: cu
          else cu
        let newUrl := cu2 ++ MERGE_DELIMITER ++ secSrc ++ ':' :: idB
        let newTitle :=
          if target.title ≠ [] then fuseTitle secSrc sourceLink.title target.title
          else target.title
        (links.set pn { target with url := newUrl, title := newTitle }, cnt + 1)
    else (links, cnt)) (dLinks, 0)

/-- The per-primary-entry running state: the derived clone being fused and
the bookkeeping of accepted contributions. -/
structure PrimState where
  derived : Anime
  actualMergedSources : List (List Char)
  sigParts : List (List Char)
  hasMergedAny : Bool
deriving DecidableEq, Repr

/-- The orchestrator state: the per-group and global consumed-id sets, the
global signature set and the produced merged entries. -/
structure MergeState where
  groupConsumed : List (List Char)
  globalConsumed : List (List Char)
  signatures : List (List Char)
  newMerged : List Anime
deriving DecidableEq, Repr

/-- One configured merge group (`{primary, secondaries[]}`). -/
structure MergeGroup where
  primSrc : List Char
  secondaries : List (List Char)
deriving DecidableEq, Repr

/-- One secondary source tried against the current primary entry (the body
of the `for (const secSource of availableSecondaries)` loop, lines
965-1089).  Note that the source recomputes `derived.animeId/bangumiId` and
fuses the links BEFORE the `mergedCount`/ratio validation and performs no
rollback on the rejection path. -/
def processSecondary (cache cur : List Anime) (epFilter : Option (List Char → Bool))
    (curPrimarySrc groupFingerprint : List Char) (pAnime : Anime)
    (st : MergeState × PrimState) (secSource : List Char) : MergeState × PrimState :=
  let gs := st.1
  let ps := st.2
  let secondaryItems := cur.filter (fun a =>
    decide (a.source = secSource ∧ a.animeId ∉ gs.groupConsumed))
  if secondaryItems.isEmpty then st
  else
    match findSecondaryMatch pAnime secondaryItems with
    | none => st
    | some mtch =>
      match cache.find? (fun a => decide (a.animeId = mtch.animeId)) with
      | none => st
      | some cachedMatch =>
        match cachedMatch.links with
        | none => st
        | some mLinks =>
          let filteredP := filterEpisodes ps.derived.links epFilter
          let filteredM := filterEpisodes (some mLinks) epFilter
          let offset := findBestAlignmentOffset filteredP filteredM
          let newId := natToDigits
            (generateSafeMergedId ps.derived.animeId mtch.animeId groupFingerprint).toNat
          let derived1 := { ps.derived with animeId := newId, bangumiId := newId }
          let fused := fuseLinks curPrimarySrc secSource offset filteredM
            (derived1.links.getD [])
          let derived2 := { derived1 with links := some fused.1 }
          let mergedCount := fused.2
          if 0 < mergedCount then
            if isMergeRatioValid mergedCount filteredP.length filteredM.length
                curPrimarySrc secSource then
              ({ gs with
                  groupConsumed := addMarker mtch.animeId gs.groupConsumed,
                  globalConsumed := addMarker mtch.animeId gs.globalConsumed },
               { derived := derived2,
                 actualMergedSources := ps.actualMergedSources ++ [secSource],
                 sigParts := ps.sigParts ++ [mtch.animeId],
                 hasMergedAny := true })
            else (gs, { ps with derived := derived2 })
          else (gs, { ps with derived := derived2 })

/-- One primary entry of the rotation (the body of the
`for (const pAnime of primaryItems)` loop, lines 949-1113). -/
def processPrimary (cache cur : List Anime) (epFilter : Option (List Char → Bool))
    (curPrimarySrc : List Char) (availSecondaries : List (List Char))
    (groupFingerprint : List Char) (gs : MergeState) (pAnime : Anime) : MergeState :=
  match cache.find? (fun a => decide (a.animeId = pAnime.animeId)) with
  | none => gs
  | some cachedP =>
    match cachedP.links with
    | none => gs
    | some _ =>
      let ps0 : PrimState :=
        { derived := cachedP, actualMergedSources := [],
          sigParts := [pAnime.animeId], hasMergedAny := false }
      let res := availSecondaries.foldl
        (processSecondary cache cur epFilter curPrimarySrc groupFingerprint pAnime)
        (gs, ps0)
      let gs1 := res.1
      let ps1 := res.2
      if ps1.hasMergedAny then
        let signature := joinWith '|' ps1.sigParts
        if signature ∈ gs1.signatures then gs1
        else
          let joined := joinWith DISPLAY_CONNECTOR ps1.actualMergedSources
          let fromOld := ("from ").toList ++ curPrimarySrc
          let fromNew := ("from ").toList ++ curPrimarySrc ++ DISPLAY_CONNECTOR :: joined
          let derivedF :=
            { ps1.derived with
                animeTitle := replaceFirstSub fromOld fromNew ps1.derived.animeTitle,
                source := curPrimarySrc }
          { gs1 with
              signatures := gs1.signatures ++ [signature],
              newMerged := gs1.newMerged ++ [derivedF],
              groupConsumed := addMarker pAnime.animeId gs1.groupConsumed,
              globalConsumed := addMarker pAnime.animeId gs1.globalConsumed }
      else gs1

/-- One rotation step: chain position `i` acts as primary against the tail
of the chain (lines 918-1113).  The primary candidate list is the snapshot
taken before the inner loop, as in the source. -/
def rotationStep (cache cur : List Anime) (epFilter : Option (List Char → Bool))
    (chain : List (List Char)) (groupFingerprint : List Char)
    (gs : MergeState) (i : Nat) : MergeState :=
  let curPrimarySrc := chain.getD i []
  let avail := chain.drop (i + 1)
  let allSourceItems := cur.filter (fun a => decide (a.source = curPrimarySrc))
  if allSourceItems.isEmpty then gs
  else
    let primaryItems := allSourceItems.filter (fun a =>
      decide (a.animeId ∉ gs.groupConsumed))
    if primaryItems.isEmpty then gs
    else
      primaryItems.foldl
        (processPrimary cache cur epFilter curPrimarySrc avail groupFingerprint) gs

/-- One configured group (lines 907-1115): reset the group-local consumed
set, build the chain and its fingerprint, and run every rotation step. -/
def processGroup (cache cur : List Anime) (epFilter : Option (List Char → Bool))
    (gs : MergeState) (g : MergeGroup) : MergeState :=
  let gs0 := { gs with groupConsumed := [] }
  let chain := g.primSrc :: g.secondaries
  let groupFingerprint := joinWith '&' chain
  (List.range (chain.length - 1)).foldl
    (rotationStep cache cur epFilter chain groupFingerprint) gs0

/-- The main loops of `applyMergeLogic`, returning the final orchestrator
state (consumed ids, signatures, produced merged entries). -/
def applyMergeLogicCore (cache : List Anime) (epFilter : Option (List Char → Bool))
    (groups : List MergeGroup) (cur : List Anime) : MergeState :=
  groups.foldl (processGroup cache cur epFilter) ⟨[], [], [], []⟩

/-- `applyMergeLogic(curAnimes)` (lines 888-1129): its observable contract,
the mutated `curAnimes` list — merged entries prepended, then every entry
that is flagged `_isMerged` or whose id is globally consumed removed by the
backwards splice loop (equivalently, a filter). -/
def applyMergeLogic (cache : List Anime) (epFilter : Option (List Char → Bool))
    (groups : List MergeGroup) (cur : List Anime) : List Anime :=
  if groups.isEmpty then cur
  else
    let st := applyMergeLogicCore cache epFilter groups cur
    (st.newMerged ++ cur).filter (fun a =>
      !a.isMergedFlag && !(decide (a.animeId ∈ st.globalConsumed)))

/-! ## Concrete scenario data used by the claim witnesses -/

/-- Three-episode primary entry from source `a` (clean-merge scenario). -/
def animeMergeP : Anime :=
  { animeId := ("p1").toList, bangumiId := ("p1").toList,
    animeTitle := ("tt from a").toList, source := ("a").toList,
    startDate := [], typeDescription := [], episodeCount := 0,
    links := some [⟨("1").toList, [], ("u1").toList⟩,
      ⟨("2").toList, [], ("u2").toList⟩, ⟨("3").toList, [], ("u3").toList⟩],
    isMergedFlag := false }

/-- Three-episode secondary entry from source `b` (clean-merge scenario). -/
def animeMergeS : Anime :=
  { animeId := ("s1").toList, bangumiId := ("s1").toList,
    animeTitle := ("tt").toList, source := ("b").toList,
    startDate := [], typeDescription := [], episodeCount := 0,
    links := some [⟨("1").toList, [], ("v1").toList⟩,
      ⟨("2").toList, [], ("v2").toList⟩, ⟨("3").toList, [], ("v3").toList⟩],
    isMergedFlag := false }

/-- The configured group `a` before `b`. -/
def mergeGroupAB : MergeGroup :=
  { primSrc := ("a").toList, secondaries := [("b").toList] }

/-- Cache and input list of the clean-merge scenario. -/
def mergeListW : List Anime := [animeMergeP, animeMergeS]

/-- Six-episode primary entry (ratio-rejection scenario). -/
def animeRejP : Anime :=
  { animeId := ("p1").toList, bangumiId := ("p1").toList,
    animeTitle := ("t").toList, source := ("a").toList,
    startDate := [], typeDescription := [], episodeCount := 0,
    links := some [⟨("1").toList, [], ("u1").toList⟩,
      ⟨("2").toList, [], ("u2").toList⟩, ⟨("3").toList, [], ("u3").toList⟩,
      ⟨("4").toList, [], ("u4").toList⟩, ⟨("5").toList, [], ("u5").toList⟩,
      ⟨("6").toList, [], ("u6").toList⟩],
    isMergedFlag := false }

/-- One-episode secondary entry that matches the primary by title but can
only cover one of six episodes (`1/6 < 0.18`). -/
def animeRejS : Anime :=
  { animeId := ("s1").toList, bangumiId := ("s1").toList,
    animeTitle := ("t").toList, source := ("b").toList,
    startDate := [], typeDescription := [], episodeCount := 0,
    links := some [⟨("1").toList, [], ("v1").toList⟩],
    isMergedFlag := false }

/-- The empty orchestrator state. -/
def mergeStateEmpty : MergeState := ⟨[], [], [], []⟩

/-- The per-primary state right before the secondary source `b` is tried in
the ratio-rejection scenario. -/
def primStateRej : PrimState := ⟨animeRejP, [], [("p1").toList], false⟩

/-- The outcome of trying secondary source `b` in the ratio-rejection
scenario. -/
def rejectedOutcome : MergeState × PrimState :=
  processSecondary [animeRejP, animeRejS] [animeRejP, animeRejS] none
    (("a").toList) (("a&b").toList) animeRejP (mergeStateEmpty, primStateRej)
    (("b").toList)

/-! # Theorems -/

/-! ## C3 — MergedIdGenerator -/

/-- The per-character hash step equals the `hash * 31 + code` rolling step
wrapped to a 32-bit signed integer: `(hash << 5) - hash` is congruent to
`hash * 31` modulo `2^32` and `toInt32` only depends on that residue. -/
theorem hashStep_eq_mul31 (h : Int) (c : Nat) :
    hashStep h c = toInt32 (h * 31 + c) := by
  unfold hashStep toInt32
  omega

/-- The whole hash is the `hash * 31 + code` rolling hash. -/
theorem hashString_eq_rolling (l : List Char) :
    hashString l = l.foldl (fun h c => toInt32 (h * 31 + c.toNat)) 0 := by
  unfold hashString
  have : (fun (h : Int) (c : Char) => hashStep h c.toNat) =
      (fun (h : Int) (c : Char) => toInt32 (h * 31 + c.toNat)) := by
    funext h c
    exact hashStep_eq_mul31 h c.toNat
  rw [this]

/-- C3: `generateSafeMergedId(idA, idB, salt)` is deterministic (it is a
pure function of its inputs), is computed as the polynomial rolling hash
`hash = hash * 31 + charCode` wrapped to a 32-bit signed integer over the
string `"idA_idB_salt"`, and its result always lies within
`[1000000000, 2147483647]`. -/
theorem generateSafeMergedId_spec (id1 id2 salt : List Char) :
    generateSafeMergedId id1 id2 salt = generateSafeMergedId id1 id2 salt ∧
    generateSafeMergedId id1 id2 salt =
      ((mergedIdInput id1 id2 salt).foldl
          (fun h c => toInt32 (h * 31 + c.toNat)) 0).natAbs % 1000000000 +
        1000000000 ∧
    1000000000 ≤ generateSafeMergedId id1 id2 salt ∧
    generateSafeMergedId id1 id2 salt ≤ 2147483647 := by
  refine ⟨rfl, ?_, ?_, ?_⟩
  · unfold generateSafeMergedId
    rw [hashString_eq_rolling]
    push_cast
    ring
  · unfold generateSafeMergedId
    omega
  · unfold generateSafeMergedId
    have := Nat.mod_lt (hashString (mergedIdInput id1 id2 salt)).natAbs
      (show 0 < 1000000000 by norm_num)
    omega

/-! ## C4 — cleanText is not idempotent -/

/-- C4 counterexample: `cleanText` is not idempotent.  On `"S.2"` the first
pass turns the punctuation dot into a space (yielding `"s 2"`), and only a
second pass can then match `S\s*(\d+)` and rewrite it to `"第2季"`. -/
theorem cleanText_not_idempotent :
    cleanText (cleanText (("S.2").toList)) ≠ cleanText (("S.2").toList) := by
  decide

/-- C4 (amended): `cleanText` is not idempotent: a pass that rewrites
punctuation to spaces can expose a season pattern that only a second
application rewrites; concretely `cleanText("S.2") = "s 2"` while
`cleanText("s 2") = "第2季"`. -/
theorem cleanText_second_pass_rewrites :
    cleanText (("S.2").toList) = ("s 2").toList ∧
    cleanText (("s 2").toList) = ("第2季").toList := by
  constructor
  · decide
  · decide

/-! ## C5 — Dice coefficient -/

/-- The set-building fold of `jsSet` keeps the accumulator duplicate-free. -/
theorem foldl_insert_nodup (l : List Char) (acc : List Char) (h : acc.Nodup) :
    (l.foldl (fun acc c => if c ∈ acc then acc else acc ++ [c]) acc).Nodup := by
  induction l generalizing acc with
  | nil => exact h
  | cons c cs ih =>
    simp only [List.foldl_cons]
    by_cases hc : c ∈ acc
    · rw [if_pos hc]
      exact ih acc h
    · rw [if_neg hc]
      apply ih
      simp [List.nodup_append, h, hc]

/-- A JavaScript `Set` holds no duplicates. -/
theorem jsSet_nodup (l : List Char) : (jsSet l).Nodup :=
  foldl_insert_nodup l [] List.nodup_nil

/-- The intersection loop counts at most `|set2|` characters: the counted
elements of the duplicate-free `set1` form a duplicate-free sublist of
`set2`. -/
theorem countP_mem_le_right (u v : List Char) (hu : u.Nodup) :
    u.countP (fun c => decide (c ∈ v)) ≤ v.length := by
  rw [List.countP_eq_length_filter]
  have hnd : (u.filter (fun c => decide (c ∈ v))).Nodup := hu.filter _
  have hsub : (u.filter (fun c => decide (c ∈ v))) ⊆ v := by
    intro x hx
    have := List.mem_filter.mp hx
    simpa using this.2
  exact (hnd.subperm hsub).length_le

/-- C5: `calculateDiceSimilarity` always returns a value in `[0, 1]` and
returns `0.0` when both inputs are empty and when exactly one input is
empty (the falsy-argument guard `if (!s1 || !s2) return 0` fires before the
both-empty-sets branch, so the both-empty case yields `0`, not `1`). -/
theorem calculateDiceSimilarity_spec (s1 s2 : List Char) :
    (0 ≤ calculateDiceSimilarity s1 s2 ∧ calculateDiceSimilarity s1 s2 ≤ 1) ∧
    (s1 = [] ∧ s2 = [] → calculateDiceSimilarity s1 s2 = 0) ∧
    ((s1 = [] ∧ s2 ≠ []) ∨ (s1 ≠ [] ∧ s2 = []) →
      calculateDiceSimilarity s1 s2 = 0) := by
  refine ⟨?_, ?_, ?_⟩
  · unfold calculateDiceSimilarity
    by_cases h0 : s1 = [] ∨ s2 = []
    · rw [if_pos h0]
      norm_num
    · rw [if_neg h0]
      dsimp only
      set u := jsSet (s1.filter (fun c => !isJsWs c)) with hu
      set v := jsSet (s2.filter (fun c => !isJsWs c)) with hv
      by_cases h1 : u.length = 0 ∧ v.length = 0
      · rw [if_pos h1]
        norm_num
      · rw [if_neg h1]
        by_cases h2 : u.length = 0 ∨ v.length = 0
        · rw [if_pos h2]
          norm_num
        · rw [if_neg h2]
          push_neg at h2
          have hI1 : u.countP (fun c => decide (c ∈ v)) ≤ u.length :=
            List.countP_le_length _
          have hI2 : u.countP (fun c => decide (c ∈ v)) ≤ v.length :=
            countP_mem_le_right u v (jsSet_nodup _)
          have hden : (0 : ℚ) < (u.length : ℚ) + (v.length : ℚ) := by
            have hul : 0 < u.length := Nat.pos_of_ne_zero h2.1
            have hvl : 0 < v.length := Nat.pos_of_ne_zero h2.2
            positivity
          constructor
          · positivity
          · rw [div_le_one hden]
            have hnat : 2 * u.countP (fun c => decide (c ∈ v)) ≤
                u.length + v.length := by omega
            exact_mod_cast hnat
  · intro h
    unfold calculateDiceSimilarity
    rw [if_pos (Or.inl h.1)]
  · intro h
    unfold calculateDiceSimilarity
    rcases h with h | h
    · rw [if_pos (Or.inl h.1)]
    · rw [if_pos (Or.inr h.2)]

/-- C5 counterexample: on two empty strings the function returns `0`, not
the claimed `1.0`. -/
theorem diceSimilarity_both_empty_ne_one :
    calculateDiceSimilarity [] [] ≠ 1 := by
  decide

/-- C5 witness: the amended empty-input behaviour at concrete inputs. -/
theorem calculateDiceSimilarity_spec_witness :
    calculateDiceSimilarity [] [] = 0 ∧
    calculateDiceSimilarity [] (("a").toList) = 0 :=
  ⟨(calculateDiceSimilarity_spec [] []).2.1 ⟨rfl, rfl⟩,
   (calculateDiceSimilarity_spec [] (("a").toList)).2.2 (Or.inl ⟨rfl, by decide⟩)⟩

/-! ## C6 — media-type mismatch -/

/-- C6: with both strict media types defined and different and no
theatrical exemption, `checkMediaTypeMismatch` returns no conflict when
both counts are positive with a gap of at most five, conflict when both
counts are positive with a larger gap, and conflict whenever either count
is zero; with a missing or equal media type it returns no conflict. -/
theorem checkMediaTypeMismatch_spec (tA tB dA dB : List Char) (cA cB : Nat) :
    ((getStrictMediaType tA dA = none ∨ getStrictMediaType tB dB = none ∨
        getStrictMediaType tA dA = getStrictMediaType tB dB) →
      checkMediaTypeMismatch tA tB dA dB cA cB = false) ∧
    (getStrictMediaType tA dA ≠ none → getStrictMediaType tB dB ≠ none →
      getStrictMediaType tA dA ≠ getStrictMediaType tB dB →
      checkTheatricalExemption tA tB dA dB = false →
      ((0 < cA → 0 < cB → Nat.dist cA cB ≤ 5 →
          checkMediaTypeMismatch tA tB dA dB cA cB = false) ∧
        (0 < cA → 0 < cB → 5 < Nat.dist cA cB →
          checkMediaTypeMismatch tA tB dA dB cA cB = true) ∧
        (cA = 0 ∨ cB = 0 →
          checkMediaTypeMismatch tA tB dA dB cA cB = true))) := by
  constructor
  · intro h
    unfold checkMediaTypeMismatch
    rw [if_pos h]
  · intro h1 h2 h3 hex
    have hcond : ¬(getStrictMediaType tA dA = none ∨ getStrictMediaType tB dB = none ∨
        getStrictMediaType tA dA = getStrictMediaType tB dB) := by
      push_neg
      exact ⟨h1, h2, h3⟩
    refine ⟨?_, ?_, ?_⟩
    · intro hca hcb hle
      unfold checkMediaTypeMismatch
      rw [if_neg hcond, hex]
      simp only [Bool.false_eq_true, if_false]
      rw [if_pos ⟨hca, hcb⟩, if_neg (by omega)]
    · intro hca hcb hgt
      unfold checkMediaTypeMismatch
      rw [if_neg hcond, hex]
      simp only [Bool.false_eq_true, if_false]
      rw [if_pos ⟨hca, hcb⟩, if_pos hgt]
    · intro hz
      unfold checkMediaTypeMismatch
      rw [if_neg hcond, hex]
      simp only [Bool.false_eq_true, if_false]
      rw [if_neg (by omega)]

/-- C6 witness: explicit opposite labels with both counts zero give a
conflict (the absence-of-count defense), and no detected types give no
conflict. -/
theorem checkMediaTypeMismatch_spec_witness :
    checkMediaTypeMismatch (("电影").toList) (("电视剧").toList) [] [] 0 0 = true ∧
    checkMediaTypeMismatch [] [] [] [] 0 0 = false :=
  ⟨((checkMediaTypeMismatch_spec (("电影").toList) (("电视剧").toList) [] [] 0 0).2
      (by decide) (by decide) (by decide) (by decide)).2.2 (Or.inl rfl),
   (checkMediaTypeMismatch_spec [] [] [] [] 0 0).1 (by decide)⟩

/-! ## C7 — season mismatch -/

/-- C7: `checkSeasonMismatch` returns no conflict when neither side has
season markers; with markers on both sides it returns conflict exactly when
A holds an `S`-prefixed marker absent from B while B holds some
`S`-prefixed marker; with markers on exactly one side it returns conflict
unless the theatrical exemption applies. -/
theorem checkSeasonMismatch_spec (tA tB dA dB : List Char) :
    (extractSeasonMarkers tA dA = [] ∧ extractSeasonMarkers tB dB = [] →
      checkSeasonMismatch tA tB dA dB = false) ∧
    (extractSeasonMarkers tA dA ≠ [] ∧ extractSeasonMarkers tB dB ≠ [] →
      (checkSeasonMismatch tA tB dA dB = true ↔
        ∃ m ∈ extractSeasonMarkers tA dA, startsWithS m = true ∧
          m ∉ extractSeasonMarkers tB dB ∧
          ∃ b ∈ extractSeasonMarkers tB dB, startsWithS b = true)) ∧
    ((extractSeasonMarkers tA dA = [] ∧ extractSeasonMarkers tB dB ≠ []) ∨
        (extractSeasonMarkers tA dA ≠ [] ∧ extractSeasonMarkers tB dB = []) →
      checkSeasonMismatch tA tB dA dB = !checkTheatricalExemption tA tB dA dB) := by
  set A := extractSeasonMarkers tA dA with hA
  set B := extractSeasonMarkers tB dB with hB
  refine ⟨?_, ?_, ?_⟩
  · intro h
    unfold checkSeasonMismatch
    rw [← hA, ← hB, if_pos ⟨by simp [h.1], by simp [h.2]⟩]
  · intro h
    have hAl : 0 < A.length := List.length_pos.mpr h.1
    have hBl : 0 < B.length := List.length_pos.mpr h.2
    unfold checkSeasonMismatch
    rw [← hA, ← hB, if_neg (by omega), if_pos ⟨hAl, hBl⟩]
    simp only [List.any_eq_true, Bool.and_eq_true, Bool.not_eq_true',
      decide_eq_false_iff_not]
    constructor
    · rintro ⟨m, hm, ⟨⟨hs, hnb⟩, hany⟩⟩
      exact ⟨m, hm, hs, hnb, hany⟩
    · rintro ⟨m, hm, hs, hnb, hany⟩
      exact ⟨m, hm, ⟨⟨hs, hnb⟩, hany⟩⟩
  · intro h
    unfold checkSeasonMismatch
    rw [← hA, ← hB]
    rcases h with ⟨h1, h2⟩ | ⟨h1, h2⟩
    · have hA0 : A.length = 0 := by simp [h1]
      have hBl : 0 < B.length := List.length_pos.mpr h2
      rw [if_neg (by omega), if_neg (by omega), if_pos (by omega)]
      cases hEx : checkTheatricalExemption tA tB dA dB
      · simp
      · simp
    · have hB0 : B.length = 0 := by simp [h2]
      have hAl : 0 < A.length := List.length_pos.mpr h1
      rw [if_neg (by omega), if_neg (by omega), if_pos (by omega)]
      cases hEx : checkTheatricalExemption tA tB dA dB
      · simp
      · simp

/-- C7 witness: one-sided markers without the exemption conflict (third
clause at concrete inputs). -/
theorem checkSeasonMismatch_spec_witness :
    checkSeasonMismatch (("第2季").toList) (("abc").toList) [] [] = true := by
  have h := (checkSeasonMismatch_spec (("第2季").toList) (("abc").toList) [] []).2.2
    (Or.inr ⟨by decide, by decide⟩)
  rw [h]
  decide

/-! ## C8 — alignment offset bounds and gating -/

/-- The search loop only ever selects offsets from `[-maxShift, maxShift]`
(the initial best offset `0` is also in that range). -/
theorem alignmentSearch_bound (p s : List IdxLink) (shift : Option ℚ) (maxShift : Nat) :
    -(maxShift : Int) ≤ (alignmentSearch p s shift maxShift).1 ∧
    (alignmentSearch p s shift maxShift).1 ≤ (maxShift : Int) := by
  unfold alignmentSearch
  refine List.foldlRecOn (motive := fun pr : Int × ℚ =>
      -(maxShift : Int) ≤ pr.1 ∧ pr.1 ≤ (maxShift : Int)) _ _ _ ?_ ?_
  · constructor
    · simp
    · simp
  · intro b hb o ho
    have hoB : -(maxShift : Int) ≤ o ∧ o ≤ (maxShift : Int) := by
      unfold alignOffsets at ho
      rw [List.mem_map] at ho
      obtain ⟨k, hk, hEq⟩ := ho
      rw [List.mem_range] at hk
      omega
    rcases hsc : offsetFinalScore p s shift o with _ | fs
    · simpa [hsc] using hb
    · simp only [hsc]
      split_ifs
      · exact hoB
      · exact hb

/-- C8: `findBestAlignmentOffset` only considers offsets in
`[-maxShift, maxShift]` with `maxShift = min(max(len(primary),
len(secondary)), 15)`, so its result lies in that range and hence in
`[-15, 15]`; it returns the best-scoring offset only when that offset's
final score exceeds `0.3` and returns `0` otherwise (in particular for an
empty input list, through the early guard). -/
theorem findBestAlignmentOffset_spec (p s : List IdxLink) :
    -((min (max p.length s.length) 15 : Nat) : Int) ≤ findBestAlignmentOffset p s ∧
    findBestAlignmentOffset p s ≤ ((min (max p.length s.length) 15 : Nat) : Int) ∧
    -15 ≤ findBestAlignmentOffset p s ∧ findBestAlignmentOffset p s ≤ 15 ∧
    findBestAlignmentOffset p s =
      (if p.isEmpty || s.isEmpty then 0
       else
         if (alignmentSearch p s (seasonShiftOf p s)
             (min (max p.length s.length) 15)).2 > 3 / 10 then
           (alignmentSearch p s (seasonShiftOf p s)
             (min (max p.length s.length) 15)).1
         else 0) := by
  have hM : min (max p.length s.length) 15 ≤ 15 := Nat.min_le_right _ _
  have hb := alignmentSearch_bound p s (seasonShiftOf p s) (min (max p.length s.length) 15)
  have hmain : findBestAlignmentOffset p s =
      (if p.isEmpty || s.isEmpty then 0
       else
         if (alignmentSearch p s (seasonShiftOf p s)
             (min (max p.length s.length) 15)).2 > 3 / 10 then
           (alignmentSearch p s (seasonShiftOf p s)
             (min (max p.length s.length) 15)).1
         else 0) := rfl
  refine ⟨?_, ?_, ?_, ?_, hmain⟩ <;>
  · rw [hmain]
    by_cases hemp : (p.isEmpty || s.isEmpty) = true
    · rw [if_pos hemp]
      omega
    · rw [if_neg hemp]
      split_ifs
      · omega
      · omega

/-! ## C9 — similarity symmetry -/

/-- Any two fuels above the combined input length give the same distance:
the fuel never runs out before a base case. -/
theorem editDGo_fuel_congr (f : Nat) :
    ∀ (g : Nat) (s1 s2 : List Char), s1.length + s2.length < f →
      s1.length + s2.length < g → editDGo f s1 s2 = editDGo g s1 s2 := by
  induction f with
  | zero => omega
  | succ f ihf =>
    intro g s1 s2 hf hg
    cases g with
    | zero => omega
    | succ g =>
      cases s1 with
      | nil => cases s2 <;> rfl
      | cons a s1 =>
        cases s2 with
        | nil => rfl
        | cons b s2 =>
          simp only [List.length_cons] at hf hg
          simp only [editDGo]
          rw [ihf g s1 (b :: s2) (by simp only [List.length_cons]; omega)
              (by simp only [List.length_cons]; omega),
            ihf g (a :: s1) s2 (by simp only [List.length_cons]; omega)
              (by simp only [List.length_cons]; omega),
            ihf g s1 s2 (by omega) (by omega)]

/-- The fuel-indexed Levenshtein recurrence is symmetric in its two list
arguments, at every fuel. -/
theorem editDGo_comm (f : Nat) : ∀ (s1 s2 : List Char),
    editDGo f s1 s2 = editDGo f s2 s1 := by
  induction f with
  | zero => intro s1 s2; rfl
  | succ f ih =>
    intro s1 s2
    cases s1 with
    | nil =>
      cases s2 with
      | nil => rfl
      | cons b t => rfl
    | cons a s1 =>
      cases s2 with
      | nil => rfl
      | cons b s2 =>
        simp only [editDGo]
        rw [ih s1 (b :: s2), ih (a :: s1) s2, ih s1 s2]
        have hc : (if a = b then 0 else 1) = (if b = a then 0 else 1) := by
          by_cases h : a = b
          · rw [if_pos h, if_pos h.symm]
          · rw [if_neg h, if_neg (fun hh => h hh.symm)]
        rw [hc, Nat.min_comm (editDGo f (b :: s2) s1 + 1)]

/-- The Levenshtein distance is symmetric in its two arguments. -/
theorem editDistance_comm (s1 s2 : List Char) :
    editDistance s1 s2 = editDistance s2 s1 := by
  unfold editDistance
  rw [Nat.add_comm s1.length s2.length, editDGo_comm]

/-- The counted intersection of two duplicate-free lists as a finset
intersection. -/
theorem filter_mem_toFinset (u v : List Char) (hu : u.Nodup) :
    (u.filter (fun c => decide (c ∈ v))).length = (u.toFinset ∩ v.toFinset).card := by
  rw [← List.toFinset_card_of_nodup (hu.filter _)]
  congr 1
  ext z
  simp [List.mem_filter, Finset.mem_inter]

/-- The intersection count of two duplicate-free lists is symmetric. -/
theorem countP_mem_comm (u v : List Char) (hu : u.Nodup) (hv : v.Nodup) :
    u.countP (fun c => decide (c ∈ v)) = v.countP (fun c => decide (c ∈ u)) := by
  rw [List.countP_eq_length_filter, List.countP_eq_length_filter,
    filter_mem_toFinset u v hu, filter_mem_toFinset v u hv, Finset.inter_comm]

/-- The Dice coefficient is symmetric. -/
theorem calculateDiceSimilarity_comm (x y : List Char) :
    calculateDiceSimilarity x y = calculateDiceSimilarity y x := by
  unfold calculateDiceSimilarity
  by_cases h0 : x = [] ∨ y = []
  · rw [if_pos h0, if_pos (Or.symm h0)]
  · rw [if_neg h0, if_neg (fun h => h0 (Or.symm h))]
    dsimp only
    set u := jsSet (x.filter (fun c => !isJsWs c)) with hu
    set v := jsSet (y.filter (fun c => !isJsWs c)) with hv
    by_cases h1 : u.length = 0 ∧ v.length = 0
    · rw [if_pos h1, if_pos (And.symm h1)]
    · rw [if_neg h1, if_neg (fun h => h1 (And.symm h))]
      by_cases h2 : u.length = 0 ∨ v.length = 0
      · rw [if_pos h2, if_pos (Or.symm h2)]
      · rw [if_neg h2, if_neg (fun h => h2 (Or.symm h))]
        rw [countP_mem_comm u v (jsSet_nodup _) (jsSet_nodup _),
          add_comm ((u.length : ℚ))]

/-- The combined similarity score is symmetric: every branch condition and
every branch value of the source is invariant under swapping the inputs. -/
theorem calculateSimilarity_comm (a b : List Char) :
    calculateSimilarity a b = calculateSimilarity b a := by
  unfold calculateSimilarity
  by_cases h0 : a = [] ∨ b = []
  · rw [if_pos h0, if_pos (Or.symm h0)]
  · rw [if_neg h0, if_neg (fun h => h0 (Or.symm h))]
    dsimp only
    set s1 := cleanText a with hs1
    set s2 := cleanText b with hs2
    by_cases he : s1 = s2
    · rw [if_pos he, if_pos he.symm]
    · rw [if_neg he, if_neg (show ¬s2 = s1 from fun h => he h.symm)]
      by_cases hc : (containsSub s1 s2 || containsSub s2 s1) = true
      · rw [if_pos hc,
          if_pos (show (containsSub s2 s1 || containsSub s1 s2) = true from by
            rw [Bool.or_comm]; exact hc)]
        rw [min_comm ((s1.length : ℚ)) ((s2.length : ℚ)),
          max_comm ((s1.length : ℚ)) ((s2.length : ℚ))]
      · rw [if_neg hc,
          if_neg (show ¬(containsSub s2 s1 || containsSub s1 s2) = true from by
            rw [Bool.or_comm]; exact hc)]
        rw [editDistance_comm s1 s2, Nat.max_comm s1.length s2.length,
          calculateDiceSimilarity_comm s1 s2]

/-- A non-empty string is perfectly similar to itself: the cleaned strings
coincide, so the exact-match branch returns 1. -/
theorem calcSim_self (a : List Char) (h : a ≠ []) : calculateSimilarity a a = 1 := by
  unfold calculateSimilarity
  rw [if_neg (by simp [h]), if_pos rfl]

/-- C9: `calculateSimilarity` is symmetric, and every non-empty string has
similarity `1.0` with itself. -/
theorem calculateSimilarity_symm_refl (a b : List Char) :
    calculateSimilarity a b = calculateSimilarity b a ∧
    (a ≠ [] → calculateSimilarity a a = 1) :=
  ⟨calculateSimilarity_comm a b, fun h => calcSim_self a h⟩

/-- C9 witness: symmetry and self-similarity at concrete inputs. -/
theorem calculateSimilarity_symm_refl_witness :
    calculateSimilarity (("ab").toList) (("b").toList) =
      calculateSimilarity (("b").toList) (("ab").toList) ∧
    calculateSimilarity (("ab").toList) (("ab").toList) = 1 :=
  ⟨(calculateSimilarity_symm_refl (("ab").toList) (("b").toList)).1,
   (calculateSimilarity_symm_refl (("ab").toList) (("b").toList)).2 (by decide)⟩

/-! ## C10 — special episode types -/

/-- A matched substring needle has its head character somewhere in the
haystack. -/
theorem containsSub_head_mem {hay : List Char} {x : Char} {rest : List Char}
    (h : containsSub hay (x :: rest) = true) : x ∈ hay := by
  induction hay with
  | nil => simp [containsSub, List.isEmpty] at h
  | cons c cs ih =>
    rw [containsSub, Bool.or_eq_true] at h
    rcases h with h | h
    · rw [startsWithL, Bool.and_eq_true, decide_eq_true_eq] at h
      exact h.1 ▸ List.mem_cons_self c cs
    · exact List.mem_cons_of_mem c (ih h)

/-- No character lower-cases to the capital `B`: uppercase letters map into
the lowercase range and everything else (which is not `B`) is unchanged. -/
theorem toLower_ne_upper_B (c : Char) : Char.toLower c ≠ 'B' := by
  simp only [Char.toLower]
  by_cases hc : c.toNat ≥ 65 ∧ c.toNat ≤ 90
  · rw [if_pos hc]
    obtain ⟨h1, h2⟩ := hc
    set n := c.toNat with hn
    interval_cases n <;> decide
  · rw [if_neg hc]
    intro hEq
    apply hc
    rw [hEq]
    constructor <;> decide

/-- C10: `getSpecialEpisodeType` never returns `Bloopers`: the title is
lower-cased before the substring test for the capitalized token, making
that branch unreachable, so the range is exactly
`opening`, `ending`, `interview` and `null` (each witnessed reachable). -/
theorem getSpecialEpisodeType_range (title : List Char) :
    (getSpecialEpisodeType title = none ∨
      getSpecialEpisodeType title = some (("opening").toList) ∨
      getSpecialEpisodeType title = some (("ending").toList) ∨
      getSpecialEpisodeType title = some (("interview").toList)) ∧
    getSpecialEpisodeType title ≠ some (("Bloopers").toList) ∧
    getSpecialEpisodeType (("opening 1").toList) = some (("opening").toList) ∧
    getSpecialEpisodeType (("Ending").toList) = some (("ending").toList) ∧
    getSpecialEpisodeType (("Interview").toList) = some (("interview").toList) ∧
    getSpecialEpisodeType (("Bloopers").toList) = none ∧
    getSpecialEpisodeType [] = none := by
  have hB : containsSub (title.map Char.toLower) (("Bloopers").toList) = false := by
    rw [Bool.eq_false_iff]
    intro hcs
    have hmem : 'B' ∈ title.map Char.toLower := containsSub_head_mem hcs
    rw [List.mem_map] at hmem
    obtain ⟨c, _, hEq⟩ := hmem
    exact toLower_ne_upper_B c hEq
  have hmain : getSpecialEpisodeType title = none ∨
      getSpecialEpisodeType title = some (("opening").toList) ∨
      getSpecialEpisodeType title = some (("ending").toList) ∨
      getSpecialEpisodeType title = some (("interview").toList) := by
    by_cases h0 : title.isEmpty = true
    · exact Or.inl (by unfold getSpecialEpisodeType; rw [if_pos h0])
    · by_cases h1 : containsSub (title.map Char.toLower) (("opening").toList) = true
      · refine Or.inr (Or.inl ?_)
        unfold getSpecialEpisodeType
        rw [if_neg h0]
        dsimp only
        rw [if_pos h1]
      · by_cases h2 : containsSub (title.map Char.toLower) (("ending").toList) = true
        · refine Or.inr (Or.inr (Or.inl ?_))
          unfold getSpecialEpisodeType
          rw [if_neg h0]
          dsimp only
          rw [if_neg h1, if_pos h2]
        · by_cases h3 : containsSub (title.map Char.toLower) (("interview").toList) = true
          · refine Or.inr (Or.inr (Or.inr ?_))
            unfold getSpecialEpisodeType
            rw [if_neg h0]
            dsimp only
            rw [if_neg h1, if_neg h2, if_pos h3]
          · refine Or.inl ?_
            unfold getSpecialEpisodeType
            rw [if_neg h0]
            dsimp only
            rw [if_neg h1, if_neg h2, if_neg h3, hB]
            simp only [Bool.false_eq_true, if_false]
  refine ⟨hmain, ?_, by decide, by decide, by decide, by decide, by decide⟩
  rcases hmain with h | h | h | h <;> rw [h] <;> simp

/-! ## C1 — cleanup of consumed entries, and C2 — rejected merges mutate -/

/-- C1: after `applyMergeLogic` returns, every entry whose id was consumed
by any accepted merge (as primary or as matched secondary) is absent from
the final list: the cleanup pass removes every item whose `animeId` is in
the global consumed-id set produced by the run. -/
theorem applyMergeLogic_removes_consumed (cache : List Anime)
    (epFilter : Option (List Char → Bool)) (groups : List MergeGroup)
    (cur : List Anime) (a : Anime)
    (h : a.animeId ∈ (applyMergeLogicCore cache epFilter groups cur).globalConsumed) :
    a ∉ applyMergeLogic cache epFilter groups cur := by
  intro hmem
  unfold applyMergeLogic at hmem
  by_cases hg : groups.isEmpty = true
  · have hnil : groups = [] := by
      cases groups with
      | nil => rfl
      | cons g gs => simp [List.isEmpty] at hg
    rw [hnil] at h
    simp [applyMergeLogicCore] at h
  · rw [if_neg hg] at hmem
    rw [List.mem_filter] at hmem
    have h2 := hmem.2
    simp only [Bool.and_eq_true, Bool.not_eq_true', decide_eq_false_iff_not] at h2
    exact h2.2 h

set_option maxRecDepth 100000 in
/-- C1 witness: in the clean-merge scenario both original entries are
consumed, and the consumed primary is absent from the output. -/
theorem applyMergeLogic_removes_consumed_witness :
    (("p1").toList ∈
      (applyMergeLogicCore mergeListW none [mergeGroupAB] mergeListW).globalConsumed) ∧
    animeMergeP ∉ applyMergeLogic mergeListW none [mergeGroupAB] mergeListW :=
  ⟨by with_unfolding_all decide,
   applyMergeLogic_removes_consumed mergeListW none [mergeGroupAB] mergeListW
     animeMergeP (by with_unfolding_all decide)⟩

set_option maxRecDepth 100000 in
/-- C2 (code bug, evaluated at the failing input): in the ratio-rejection
scenario the secondary contribution is rejected (nothing is consumed and
`hasMergedAny` stays false, because the coverage ratio `1/6` fails the
`0.18` check), yet the derived entry is NOT left unchanged: its id was
recomputed before the validation and its first link url already carries the
fused `a:u1$$$b:v1` value instead of the original `u1`.  The source
recomputes `derived.animeId/bangumiId` (line 989) and fuses links (lines
996-1054) before the ratio check (line 1070) and performs no rollback on
rejection. -/
theorem rejectedSecondary_still_mutates_derived :
    rejectedOutcome.1 = mergeStateEmpty ∧
    rejectedOutcome.2.hasMergedAny = false ∧
    isMergeRatioValid 1 6 1 (("a").toList) (("b").toList) = false ∧
    rejectedOutcome.2.derived.animeId ≠ animeRejP.animeId ∧
    (((rejectedOutcome.2.derived.links.getD []).getD 0 default).url =
      ("a:u1$$$b:v1").toList) ∧
    ((animeRejP.links.getD []).getD 0 default).url = ("u1").toList := by
  refine ⟨?_, ?_, ?_, ?_, ?_, ?_⟩ <;> with_unfolding_all decide
